import Mathlib

/-!
Verification development for the EDGAR filing-ingestion pipeline.

The definitions below are a shallow embedding of the Python sources:
  EDGAR1/edgar_downloader.py        (EDGARDownloader)
  EDGAR/daily_downloader_inspect.py (SECDailyIndexDownloader)
  EDGAR/utils/sec_database.py       (SECDatabase)
  EDGAR/utils/index_parser.py       (extract_sec_filing_data)
  EDGAR - Copy/utils/rate_limit.py  (SafeRateLimiter)

Python strings are Lean Strings; the network is an explicit oracle
(Env.net / Env.body); uncaught Python exceptions are the error side of
Except PyErr; SystemExit (process abort) is PyErr.sysExit.
-/

namespace Edgar

/-! ## Python string primitives

Faithful models of the Python string operations the sources use
(str.find, slicing, split, strip, zfill, replace, endswith, upper). -/

/-- Whitespace in the sense of Python str.strip and the regex class backslash-s
(ASCII subset; the sources only ever meet ASCII whitespace). -/
def pyIsSpaceChar (c : Char) : Bool :=
  c = ' ' || c = '\t' || c = '\n' || c = '\r' || c = '\x0b' || c = '\x0c'

/-- Model of Python str.strip(): drop whitespace on both ends. -/
def pyStrip (s : String) : String :=
  ⟨((s.data.dropWhile pyIsSpaceChar).reverse.dropWhile pyIsSpaceChar).reverse⟩

/-- Decidable equality of a list prefix: does pat occur at the head of s. -/
def headEq (s pat : List Char) : Bool :=
  s.take pat.length == pat

/-- First index at which sub occurs in s, scanning left to right. -/
def findSubAux (sub : List Char) : List Char → Nat → Option Nat
  | [], i => if sub = [] then some i else none
  | c :: cs, i => if headEq (c :: cs) sub then some i else findSubAux sub cs (i + 1)

/-- Model of Python str.find: index of first occurrence, -1 when absent. -/
def pyFindStr (s sub : String) : Int :=
  match findSubAux sub.data s.data 0 with
  | some i => (i : Int)
  | none => -1

/-- Substring containment, the Python infix in on strings. -/
def containsSub (s sub : String) : Bool :=
  (findSubAux sub.data s.data 0).isSome

/-- Model of Python str.startswith. -/
def pyStartsWith (s pre : String) : Bool :=
  headEq s.data pre.data

/-- Model of Python str.endswith for a single suffix. -/
def pyEndsWith (s suf : String) : Bool :=
  headEq s.data.reverse suf.data.reverse

/-- Model of Python str.endswith with a tuple of suffixes. -/
def endsWithAny (s : String) (sufs : List String) : Bool :=
  sufs.any (pyEndsWith s)

/-- Normalize a Python slice bound: negative indices count from the end,
then the result is clamped into the interval from 0 to len. -/
def pyNormIdx (len : Nat) (i : Int) : Nat :=
  let j : Int := if i < 0 then (len : Int) + i else i
  (max 0 (min j (len : Int))).toNat

/-- Model of Python string slicing s[a:b] with Int bounds. -/
def pySlice (s : String) (a b : Int) : String :=
  let lo := pyNormIdx s.length a
  let hi := pyNormIdx s.length b
  ⟨(s.data.drop lo).take (hi - lo)⟩

/-- Model of Python indexing xs[i] for Int i (negative counts from the end);
none models an IndexError. -/
def pyIndex {α : Type} (l : List α) (i : Int) : Option α :=
  let j : Int := if i < 0 then (l.length : Int) + i else i
  if j < 0 then none else l.get? j.toNat

/-- Split on a single separator character, keeping empty pieces, exactly like
Python str.split(sep) with a one-character separator. -/
def splitCharAux (sep : Char) : List Char → List Char → List (List Char)
  | [], cur => [cur.reverse]
  | c :: cs, cur =>
    if c = sep then cur.reverse :: splitCharAux sep cs [] else splitCharAux sep cs (c :: cur)

/-- Model of Python str.split with a one-character separator. -/
def pySplit (s : String) (sep : Char) : List String :=
  (splitCharAux sep s.data []).map (fun l => ⟨l⟩)

/-- Model of Python str.splitlines for newline-separated text (the index files
use plain newlines): split on the newline character and drop the final empty
piece produced by a trailing newline. -/
def pySplitlines (s : String) : List String :=
  if s.data = [] then []
  else
    let parts := pySplit s '\n'
    if s.data.getLast? = some '\n' then parts.dropLast else parts

/-- Replace every non-overlapping occurrence of pat by rep, left to right,
exactly like Python str.replace (pat is always nonempty in the sources). -/
def replaceAux (pat rep : List Char) : Nat → List Char → List Char
  | 0, s => s
  | _ + 1, [] => []
  | fuel + 1, c :: cs =>
    if headEq (c :: cs) pat && pat.length != 0 then
      rep ++ replaceAux pat rep fuel ((c :: cs).drop pat.length)
    else
      c :: replaceAux pat rep fuel cs

/-- Model of Python str.replace. -/
def pyReplace (s pat rep : String) : String :=
  ⟨replaceAux pat.data rep.data (s.length + 1) s.data⟩

/-- Model of Python str.zfill for the non-negative strings the sources use. -/
def pyZfill (s : String) (width : Nat) : String :=
  if width ≤ s.length then s else ⟨List.replicate (width - s.length) '0'⟩ ++ s

/-- Model of Python str.upper for the ASCII data in play. -/
def pyUpper (s : String) : String := ⟨s.data.map Char.toUpper⟩

/-- Model of Python str.isdigit: nonempty and all digits. -/
def pyIsDigit (s : String) : Bool :=
  s.data ≠ [] && s.data.all Char.isDigit

/-! ## A small backtracking regex engine

The sources lean on Python re with a handful of constructs: literals,
character classes, greedy and lazy repetition of a character class, an
optional group, capturing groups and an end anchor.  Starred and plus
subpatterns in the sources are always single character classes, so the
abstract syntax below restricts repetition to classes, which keeps the
matcher structurally recursive while reproducing the backtracking order
of the Python engine (alternatives left first, greedy longest first,
lazy shortest first, leftmost search position first). -/

inductive RE where
  | eps : RE
  | eos : RE
  | tok (p : Char → Bool) : RE
  | cat (a b : RE) : RE
  | alt (a b : RE) : RE
  | starTok (p : Char → Bool) (lazy : Bool) : RE
  | grp (n : Nat) (a : RE) : RE

/-- Captured groups: group number paired with the consumed characters;
the head of the list is the most recent capture. -/
abbrev Caps := List (Nat × List Char)

/-- Backtracking matcher in continuation style.  The continuation receives
the remaining input and the captures collected so far. -/
def mtch {α : Type} : RE → List Char → Caps → (List Char → Caps → Option α) → Option α
  | .eps, s, g, k => k s g
  | .eos, s, g, k => if s.isEmpty then k s g else none
  | .tok p, s, g, k =>
    match s with
    | [] => none
    | c :: cs => if p c then k cs g else none
  | .cat a b, s, g, k => mtch a s g fun s1 g1 => mtch b s1 g1 k
  | .alt a b, s, g, k =>
    match mtch a s g k with
    | some r => some r
    | none => mtch b s g k
  | .starTok p lazy, s, g, k =>
    let m := (s.takeWhile p).length
    let order := if lazy then List.range (m + 1) else (List.range (m + 1)).reverse
    order.findSome? fun i => k (s.drop i) g
  | .grp n a, s, g, k =>
    mtch a s g fun s1 g1 => k s1 ((n, s.take (s.length - s1.length)) :: g1)

/-- Sequence a list of regex pieces. -/
def reSeq (l : List RE) : RE := l.foldr RE.cat RE.eps

/-- Case-sensitive literal string. -/
def reLit (str : String) : RE :=
  reSeq (str.data.map fun c => RE.tok (fun x => x = c))

/-- Case-insensitive literal string, modelling re.IGNORECASE. -/
def reLitCI (str : String) : RE :=
  reSeq (str.data.map fun c => RE.tok (fun x => x.toLower = c.toLower))

/-- Plus of a character class: one mandatory token then a star. -/
def rePlusTok (p : Char → Bool) (lazy : Bool) : RE :=
  .cat (.tok p) (.starTok p lazy)

/-- Exactly n repetitions of a character class. -/
def reRepTok (p : Char → Bool) (n : Nat) : RE :=
  reSeq (List.replicate n (RE.tok p))

/-- Optional subpattern, preferring presence, modelling a question mark. -/
def reOpt (a : RE) : RE := .alt a .eps

/-- Anchored match at the start of the input, modelling re.match. -/
def reMatchHere (re : RE) (s : List Char) : Option Caps :=
  mtch re s [] fun _ g => some g

/-- Unanchored search, leftmost position first, modelling re.search. -/
def reSearch (re : RE) (s : List Char) : Option Caps :=
  (List.range (s.length + 1)).findSome? fun i => reMatchHere re (s.drop i)

/-- Leftmost match with its start and end offsets, for findall. -/
def reFirstSpan (re : RE) (s : List Char) : Option (Nat × Nat) :=
  (List.range (s.length + 1)).findSome? fun i =>
    mtch re (s.drop i) [] fun s1 _ => some (i, s.length - s1.length)

/-- All non-overlapping leftmost matches, modelling re.findall (the full
matched text of each match).  Fuel bounds the recursion; each step strictly
shrinks the input. -/
def reFindAllAux (re : RE) : Nat → List Char → List (List Char)
  | 0, _ => []
  | fuel + 1, s =>
    match reFirstSpan re s with
    | none => []
    | some (i, e) =>
      ((s.drop i).take (e - i)) :: reFindAllAux re fuel (s.drop (max e (i + 1)))

/-- Model of re.findall returning matched substrings. -/
def reFindAll (re : RE) (s : List Char) : List (List Char) :=
  reFindAllAux re (s.length + 1) s

/-- Fetch a captured group by number (empty when the group never matched,
which never happens for the groups the sources read). -/
def capGet (g : Caps) (n : Nat) : String :=
  match g.find? (fun p => p.1 == n) with
  | some p => ⟨p.2⟩
  | none => ""

/-! ## Character classes used by the patterns in the sources -/

/-- The dot of re.DOTALL: any character. -/
def anyChar (_ : Char) : Bool := true

/-- The plain dot: any character except a newline. -/
def noNl (c : Char) : Bool := c ≠ '\n'

/-- The class excluding a closing angle bracket. -/
def notGt (c : Char) : Bool := c ≠ '>'

/-- The class excluding a double quote. -/
def notQuote (c : Char) : Bool := c ≠ '"'

/-- The class excluding an ampersand. -/
def notAmp (c : Char) : Bool := c ≠ '&'

/-- ASCII digit, the regex class backslash-d. -/
def digitChar (c : Char) : Bool := c.isDigit

/-- ASCII letter, the regex class with both letter ranges. -/
def alphaChar (c : Char) : Bool := c.isAlpha

/-- Non-whitespace, the regex class uppercase backslash-S. -/
def nonspaceChar (c : Char) : Bool := !pyIsSpaceChar c

/-! ## Python dict model

Insertion-ordered association list with upsert; overwriting keeps the
original position, exactly like a Python dict. -/

def dictHas {α : Type} (d : List (String × α)) (k : String) : Bool :=
  d.any (fun p => p.1 == k)

def dictGet {α : Type} (d : List (String × α)) (k : String) : Option α :=
  (d.find? (fun p => p.1 == k)).map (fun p => p.2)

def dictSet {α : Type} (d : List (String × α)) (k : String) (v : α) : List (String × α) :=
  if dictHas d k then d.map (fun p => if p.1 == k then (k, v) else p) else d ++ [(k, v)]

/-! ## index_parser.py: extract_sec_filing_data (EDGAR/utils copy) -/

/-- Model of strip_html_tags: remove every substring matching an opening
angle bracket, one or more non-closing characters, then a closing angle
bracket (re.sub with the tag pattern).  Fuel bounds the scan. -/
def stripTagsAux : Nat → List Char → List Char
  | 0, s => s
  | _ + 1, [] => []
  | fuel + 1, '<' :: rest =>
    let run := rest.takeWhile notGt
    if run.isEmpty then '<' :: stripTagsAux fuel rest
    else
      match rest.drop run.length with
      | '>' :: after => stripTagsAux fuel after
      | _ => '<' :: stripTagsAux fuel rest
  | fuel + 1, c :: rest => c :: stripTagsAux fuel rest

/-- strip_html_tags from index_parser.py. -/
def strip_html_tags (s : String) : String :=
  ⟨stripTagsAux (s.length + 1) s.data⟩

/-- A row of the filing index tables: the type cell and the linked document. -/
structure Entry where
  type : String
  doc : String
deriving DecidableEq

/-- The row pattern of re.findall over sections: a table-row open tag,
lazily anything, then the closing row tag (DOTALL). -/
def trRowRE : RE :=
  reSeq [reLit "<tr", .starTok notGt false, reLit ">", .starTok anyChar true, reLit "</tr>"]

/-- A table-cell open tag. -/
def tdOpenRE : RE :=
  reSeq [reLit "<td", .starTok notGt false, reLit ">"]

/-- The four-cell pattern searched in each row (DOTALL): sequence number
cell, description cell (group 1), link cell with the href attribute
(group 2), type cell (group 3). -/
def tdRowRE : RE :=
  reSeq
    [tdOpenRE, .starTok anyChar true, reLit "</td>", .starTok pyIsSpaceChar false,
     tdOpenRE, .grp 1 (.starTok anyChar true), reLit "</td>", .starTok pyIsSpaceChar false,
     tdOpenRE, .starTok anyChar true, reLit "href=\"", .grp 2 (rePlusTok notQuote false),
     reLit "\"", .starTok notGt false, reLit ">", .starTok anyChar true, reLit "</a>",
     .starTok anyChar true, reLit "</td>", .starTok pyIsSpaceChar false,
     tdOpenRE, .grp 3 (.starTok anyChar true), reLit "</td>"]

/-- The pattern extracting the target of an inline-viewer redirect link. -/
def docEqRE : RE :=
  reSeq [reLit "doc=", .grp 1 (rePlusTok notAmp false)]

/-- Normalize an inline-viewer href to its target path, as in both section
loops of extract_sec_filing_data. -/
def normalizeHref (raw_href : String) : String :=
  if pyStartsWith raw_href "/ix?doc=" then
    match reSearch docEqRE raw_href.data with
    | some g => capGet g 1
    | none => raw_href
  else raw_href

/-- Parse one table row with the four-cell pattern, yielding the stripped
description, the normalized href and the stripped type. -/
def parseRow (row : List Char) : Option (String × String × String) :=
  match reSearch tdRowRE row with
  | none => none
  | some g =>
    let description := strip_html_tags (pyStrip (capGet g 1))
    let raw_href := pyStrip (capGet g 2)
    let href := normalizeHref raw_href
    let file_type := strip_html_tags (pyStrip (capGet g 3))
    some (description, href, file_type)

/-- extract_sec_filing_data from EDGAR/utils/index_parser.py.  The first
component is the Document Format Files section, the second the Data Files
section.  Note: the source applies the same suffix filter (names ending in
htm, html or txt) to BOTH sections, although its own comment describes the
Data Files section as keeping all files. -/
def extract_sec_filing_data (html_content : String) :
    List (String × Entry) × List (String × Entry) :=
  let doc_section := pySlice html_content
    (pyFindStr html_content "<p>Document Format Files</p>")
    (pyFindStr html_content "<p>Data Files</p>")
  let rows := reFindAll trRowRE doc_section.data
  let doc_format_files := rows.foldl (fun d row =>
    match parseRow row with
    | none => d
    | some (description, href, file_type) =>
      if endsWithAny href ["htm", "html", "txt"] then
        dictSet d description ⟨file_type, href⟩
      else d) []
  let data_section := pySlice html_content
    (pyFindStr html_content "<p>Data Files</p>")
    (pyFindStr html_content "<!-- END DOCUMENT DIV -->")
  let rows2 := reFindAll trRowRE data_section.data
  let data_files := rows2.foldl (fun d row =>
    match parseRow row with
    | none => d
    | some (description, href, file_type) =>
      if endsWithAny href ["htm", "html", "txt"] then
        dictSet d description ⟨file_type, href⟩
      else d) []
  (doc_format_files, data_files)

/-! ## Date parsing: the strptime calls of edgar_downloader.py -/

/-- Days in a month with the Gregorian leap rule, as Python's datetime
validates. -/
def daysInMonth (y m : Nat) : Nat :=
  if m = 2 then
    if y % 4 = 0 && (y % 100 ≠ 0 || y % 400 = 0) then 29 else 28
  else if m = 4 || m = 6 || m = 9 || m = 11 then 30
  else 31

/-- Validity of a calendar date in Python's datetime. -/
def validDate (y m d : Nat) : Bool :=
  1 ≤ m && m ≤ 12 && 1 ≤ d && d ≤ daysInMonth y m

/-- Read a decimal number from a digit list. -/
def digitsToNat (l : List Char) : Nat :=
  l.foldl (fun n c => n * 10 + (c.toNat - '0'.toNat)) 0

/-- Model of strptime with the dashed year-month-day format; none models a
ValueError.  The sources always feed zero-padded components. -/
def strptimeYmdDash (s : String) : Option (Nat × Nat × Nat) :=
  match pySplit s '-' with
  | [ys, ms, ds] =>
    if pyIsDigit ys && pyIsDigit ms && pyIsDigit ds
        && ys.length ≤ 4 && ms.length ≤ 2 && ds.length ≤ 2 then
      let y := digitsToNat ys.data
      let m := digitsToNat ms.data
      let d := digitsToNat ds.data
      if validDate y m d then some (y, m, d) else none
    else none
  | _ => none

/-- Month abbreviations for the fallback month-name date format. -/
def monthAbbr : List (String × Nat) :=
  [("jan", 1), ("feb", 2), ("mar", 3), ("apr", 4), ("may", 5), ("jun", 6),
   ("jul", 7), ("aug", 8), ("sep", 9), ("oct", 10), ("nov", 11), ("dec", 12)]

/-- Model of strptime with the month-name format (abbreviated month, day,
comma, four-digit year); none models a ValueError. -/
def strptimeBdY (s : String) : Option (Nat × Nat × Nat) :=
  match pySplit s ' ' with
  | [mon, dayComma, ys] =>
    match monthAbbr.find? (fun p => p.1 == (pyUpper mon).toLower) with
    | none => none
    | some (_, m) =>
      if pyEndsWith dayComma "," then
        let ds := pySlice dayComma 0 ((dayComma.length : Int) - 1)
        if pyIsDigit ds && ds.length ≤ 2 && pyIsDigit ys && ys.length = 4 then
          let d := digitsToNat ds.data
          let y := digitsToNat ys.data
          if validDate y m d then some (y, m, d) else none
        else none
      else none
  | _ => none

/-- Model of strptime with the compact eight-digit format; none models a
ValueError. -/
def strptimeYmd8 (s : String) : Option (Nat × Nat × Nat) :=
  if pyIsDigit s && s.length = 8 then
    let y := digitsToNat (pySlice s 0 4).data
    let m := digitsToNat (pySlice s 4 6).data
    let d := digitsToNat (pySlice s 6 8).data
    if validDate y m d then some (y, m, d) else none
  else none

/-! ## edgar_downloader.py: fiscal metadata extraction -/

/-- The month/day to quarter mapping of determine_QTR_from_date. -/
def quarterOf (m day : Nat) : String :=
  if m = 3 && day ≥ 28 then "Q1"
  else if m = 6 && day ≥ 28 then "Q2"
  else if m = 9 && day ≥ 28 then "Q3"
  else if m = 12 && day ≥ 28 then "Q4"
  else if m ≤ 4 then "Q1"
  else if m ≤ 7 then "Q2"
  else if m ≤ 10 then "Q3"
  else "Q4"

/-- determine_QTR_from_date from edgar_downloader.py.  The argument is
optional because the Python accepts None; every failure path of the source
(empty, the literal None string, both strptime formats failing) returns the
first quarter. -/
def determine_QTR_from_date (date_str : Option String) : String :=
  match date_str with
  | none => "Q1"
  | some d0 =>
    if d0 = "" || d0 = "None" then "Q1"
    else
      let d := pyStrip (pyReplace (pyReplace d0 "\n" "") "\t" "")
      match strptimeYmdDash d with
      | some (_, m, day) => quarterOf m day
      | none =>
        match strptimeBdY d with
        | some (_, m, day) => quarterOf m day
        | none => "Q1"

/-- estimate_10K_fiscal_year from edgar_downloader.py: an integer year; none
models the ValueError of a failing strptime. -/
def estimate_10K_fiscal_year (date_filed : String) : Option Int :=
  match strptimeYmd8 date_filed with
  | none => none
  | some (y, m, _) => if m ≤ 5 then some ((y : Int) - 1) else some (y : Int)

/-- The fiscal_info dict of extract_fiscal_info_from_txt.  The first six
fields are the keys initialized to None (none models the None value); the
last three keys are only ever created when their pattern matches, so there
none models an absent key. -/
structure FiscalInfo where
  period_end_date : Option String := none
  fiscal_year_end : Option String := none
  fiscal_year : Option String := none
  fiscal_period : Option String := none
  form_type : Option String := none
  company_name : Option String := none
  period_end_year : Option String := none
  date_filed_year : Option String := none
  date_filed : Option String := none
deriving DecidableEq

/-- Python truthiness of an optional string: present and nonempty. -/
def truthyO (o : Option String) : Bool :=
  match o with
  | some s => s ≠ ""
  | none => false

/-- Pattern for the conformed period of report: the literal label, optional
whitespace, then eight digits (IGNORECASE). -/
def rePeriodOfReport : RE :=
  reSeq [reLitCI "CONFORMED PERIOD OF REPORT:", .starTok pyIsSpaceChar false,
         .grp 1 (reRepTok digitChar 8)]

/-- Pattern for the fiscal period focus table cell: the anchor text, optional
whitespace, the cell open tag, optional whitespace, then Q and a digit from
one to four (IGNORECASE). -/
def reFiscalPeriodFocus : RE :=
  reSeq [reLitCI ">Document Fiscal Period Focus</a></td>", .starTok pyIsSpaceChar false,
         reLitCI "<td class=\"text\">", .starTok pyIsSpaceChar false,
         .grp 1 (reSeq [.tok (fun c => c.toLower = 'q'),
                        .tok (fun c => '1' ≤ c && c ≤ '4')])]

/-- Pattern for the fiscal year focus table cell (IGNORECASE). -/
def reFiscalYearFocus : RE :=
  reSeq [reLitCI ">Document Fiscal Year Focus</a></td>", .starTok pyIsSpaceChar false,
         reLitCI "<td class=\"text\">", .starTok pyIsSpaceChar false,
         .grp 1 (reRepTok digitChar 4)]

/-- Pattern for the conformed submission type: digits, a dash, letters, and
an optional slash-letter amendment marker (IGNORECASE). -/
def reSubmissionType : RE :=
  reSeq [reLitCI "CONFORMED SUBMISSION TYPE:", .starTok pyIsSpaceChar false,
         .grp 1 (reSeq [rePlusTok digitChar false, reLit "-",
                        rePlusTok alphaChar false,
                        reOpt (reSeq [reLit "/", .tok alphaChar])])]

/-- Pattern for the company conformed name: the rest of the line. -/
def reCompanyName : RE :=
  reSeq [reLitCI "COMPANY CONFORMED NAME:", .starTok pyIsSpaceChar false,
         .grp 1 (rePlusTok noNl false)]

/-- Pattern for the filed-as-of date: eight digits. -/
def reDateFiled : RE :=
  reSeq [reLitCI "FILED AS OF DATE:", .starTok pyIsSpaceChar false,
         .grp 1 (reRepTok digitChar 8)]

/-- The pure body of extract_fiscal_info_from_txt, applied to the fetched
submission text (lines 352 to 389 of edgar_downloader.py). -/
def parse_fiscal_content (content : String) : FiscalInfo :=
  let cs := content.data
  let mPeriod := reSearch rePeriodOfReport cs
  let mFP := reSearch reFiscalPeriodFocus cs
  let mFY := reSearch reFiscalYearFocus cs
  let mSub := reSearch reSubmissionType cs
  let mName := reSearch reCompanyName cs
  let mFiled := reSearch reDateFiled cs
  let fi0 : FiscalInfo := {}
  let fi1 := match mSub with
    | some g => { fi0 with form_type := some (pyUpper (capGet g 1)) }
    | none => fi0
  let fi2 := match mFY with
    | some g => { fi1 with fiscal_year := some (capGet g 1) }
    | none => fi1
  let fi3 := match mPeriod with
    | some g =>
      let raw := capGet g 1
      let y := pySlice raw 0 4
      let md := pySlice raw 4 6 ++ "-" ++ pySlice raw 6 (raw.length : Int)
      let fiA := { fi2 with
        period_end_date := some (y ++ "-" ++ md),
        period_end_year := some y }
      let fiB := if truthyO fiA.fiscal_year then fiA
                 else { fiA with fiscal_year := some y }
      { fiB with fiscal_year_end := some md }
    | none => fi2
  let fi4 := match mFiled with
    | some g =>
      let raw := capGet g 1
      { fi3 with
        date_filed_year := some (pySlice raw 0 4),
        date_filed := some (pySlice raw 0 4 ++ "-" ++ pySlice raw 4 6 ++ "-"
                            ++ pySlice raw 6 (raw.length : Int)) }
    | none => fi3
  let fi5 := match mName with
    | some g => { fi4 with company_name := some (pyStrip (capGet g 1)) }
    | none => fi4
  if fi5.form_type = some "10-Q" || fi5.form_type = some "10-Q/A" then
    match mFP with
    | some g => { fi5 with fiscal_period := some (capGet g 1) }
    | none =>
      if truthyO fi5.period_end_date then
        { fi5 with fiscal_period := some (determine_QTR_from_date fi5.period_end_date) }
      else fi5
  else if fi5.form_type = some "10-K" || fi5.form_type = some "10-K/A" then
    { fi5 with fiscal_period := some "FY" }
  else fi5

/-! ## The HTTP layer: safe_request

safe_request is identical in EDGAR1/edgar_downloader.py and
EDGAR/daily_downloader_inspect.py.  The network is an oracle mapping each
URL to the event the underlying session.get produces: a response with a
status code, a timeout, a connection error, a keyboard interrupt, or any
other unexpected exception (the final generic handler of the source). -/

inductive NetEvent where
  | ok (code : Nat) : NetEvent
  | timeout : NetEvent
  | connErr : NetEvent
  | interrupt : NetEvent
  | otherExc : NetEvent
deriving DecidableEq

/-- The distinct SystemExit messages raised by safe_request. -/
inductive AbortReason where
  | rate429 : AbortReason
  | forb403 : AbortReason
  | connection : AbortReason
  | keyboard : AbortReason
  | unexpected : AbortReason
deriving DecidableEq

/-- Uncaught Python exceptions of the embedded code: the SystemExit aborts
of safe_request, and KeyError, IndexError, ValueError, AttributeError and
NameError escaping the functions under study. -/
inductive PyErr where
  | sysExit (r : AbortReason) : PyErr
  | keyError (k : String) : PyErr
  | indexError : PyErr
  | valueError : PyErr
  | attrError : PyErr
  | nameError (v : String) : PyErr
deriving DecidableEq

/-- An HTTP response as the callers see it: status code and body text.  The
synthetic timeout response carries an empty body, like a bare
requests.Response. -/
structure Response where
  code : Nat
  text : String
deriving DecidableEq

/-- The environment of one run: the network oracle, the response bodies,
the two output directories, the ticker mapping and the on-disk directory
sizes (the last only feeds a bookkeeping field of the persisted record). -/
structure Env where
  net : String → NetEvent
  body : String → String
  baseDir : String
  targetDir : String
  tickers : List (String × String)
  dirSize : String → Nat

/-- safe_request from the sources: statuses 429 and 403 abort the process,
a timeout yields a synthetic 408 response, a connection error, a user
interrupt, and any other exception abort the process; every other status
(200, 404, the other client errors, the server errors) is returned as is. -/
def safe_request (env : Env) (url : String) : Except PyErr Response :=
  match env.net url with
  | .ok code =>
    if code = 429 then .error (.sysExit .rate429)
    else if code = 403 then .error (.sysExit .forb403)
    else .ok { code := code, text := env.body url }
  | .timeout => .ok { code := 408, text := "" }
  | .connErr => .error (.sysExit .connection)
  | .interrupt => .error (.sysExit .keyboard)
  | .otherExc => .error (.sysExit .unexpected)

/-! ## daily_downloader_inspect.py: the daily index parser -/

/-- The target form set of SECDailyIndexDownloader. -/
def targetForms : List String := ["10-K", "10-Q", "10-K/A", "10-Q/A"]

/-- A filing descriptor as built by parse_daily_index_line. -/
structure Filing where
  company_name : String
  form_type : String
  cik : String
  date_filed : String
  file_name : String
  accession_number : String
deriving DecidableEq

/-- The fixed line pattern of parse_daily_index_line: form type (group 1),
company name (group 2, lazy), at least two spaces, numeric CIK field
(group 3), eight-digit date (group 4), and a file name ending in the txt
extension (group 5), anchored at both ends. -/
def dailyLineRE : RE :=
  reSeq [.grp 1 (rePlusTok nonspaceChar false),
         rePlusTok pyIsSpaceChar false,
         .grp 2 (rePlusTok noNl true),
         .tok pyIsSpaceChar, .tok pyIsSpaceChar, .starTok pyIsSpaceChar false,
         .grp 3 (rePlusTok digitChar false),
         rePlusTok pyIsSpaceChar false,
         .grp 4 (reRepTok digitChar 8),
         rePlusTok pyIsSpaceChar false,
         .grp 5 (reSeq [rePlusTok nonspaceChar false, reLit ".txt"]),
         .eos]

/-- parse_daily_index_line from daily_downloader_inspect.py: none models
both the unmatched-line path and the swallowed exceptions of the catch-all
handler; a matched line whose form type is outside the target set also
yields none (the Python falls off the end of the function). -/
def parse_daily_index_line (line : String) : Option Filing :=
  match reMatchHere dailyLineRE (pyStrip line).data with
  | none => none
  | some g =>
    let form_type := capGet g 1
    let company_name := capGet g 2
    let date_filed := capGet g 4
    let raw_file_name := capGet g 5
    match pyIndex (pySplit raw_file_name '/') (-2) with
    | none => none
    | some seg =>
      let cik := pyZfill seg 10
      let file_name := pyStrip raw_file_name
      let url := if containsSub file_name "edgar" then
          "https://www.sec.gov/Archives/" ++ file_name
        else
          "https://www.sec.gov/Archives/edgar/" ++ file_name
      if targetForms.contains form_type then
        some { company_name := company_name, form_type := form_type, cik := cik,
               date_filed := date_filed, file_name := url,
               accession_number :=
                 (pySplit ((pySplit (pyStrip raw_file_name) '/').getLastD "") '.').headD "" }
      else none

/-- A line consisting solely of dashes: the Python set comparison demands a
nonempty line whose character set is exactly the dash. -/
def isDashLine (l : String) : Bool :=
  l.data ≠ [] && l.data.all (fun c => c = '-')

/-- The header scan of pure_parse_daily_single_index: the loop assigns
data_start to the successor of the first all-dash line and breaks; when no
line qualifies the variable is never assigned, which none models (reading
it afterwards raises NameError). -/
def findDataStart : List String → Option Nat
  | [] => none
  | l :: ls => if isDashLine l then some 1 else (findDataStart ls).map (· + 1)

/-- The pure body of pure_parse_daily_single_index over the split lines:
parse every line after the separator, keeping parsed filings whose form
type is in the target set (the membership test is re-checked after the
parse, as in the source).  none models the NameError raised when no dash
separator exists. -/
def pure_parse_daily_lines (lines : List String) : Option (List Filing) :=
  match findDataStart lines with
  | none => none
  | some data_start =>
    some (((lines.drop data_start).filterMap parse_daily_index_line).filter
      (fun f => targetForms.contains f.form_type))

/-- pure_parse_daily_single_index from daily_downloader_inspect.py: fetch
the index file (process aborts propagate), treat an error status as the
caught RequestException path returning the empty list (raise_for_status),
then run the pure parse; a missing dash separator escapes as a NameError
because the handler only catches request exceptions. -/
def pure_parse_daily_single_index (env : Env) (idx_url : String) :
    Except PyErr (List Filing) :=
  match safe_request env idx_url with
  | .error e => .error e
  | .ok resp =>
    if 400 ≤ resp.code then .ok []
    else
      match pure_parse_daily_lines (pySplitlines resp.text) with
      | none => .error (.nameError "data_start")
      | some fs => .ok fs

/-! ## sec_database.py: the FilingStore

The filings table keyed by filing_id is an insertion-ordered list of rows;
columns that the writer may leave NULL are optional. -/

/-- The identity function fixed between writer and reader. -/
def filingId (cik accession_number : String) : String :=
  cik ++ "_" ++ accession_number

/-- A persisted row: exactly the columns the INSERT of add_filing writes
(the wall-clock updated_at timestamp is out of the model). -/
structure FilingRec where
  filing_id : String
  cik : String
  accession_number : String
  form_type : String
  company_name : String
  ticker : String
  fiscal_year : Option String
  fiscal_period : Option String
  filing_date : String
  period_end_date : Option String
  file_path : String
  file_count : Nat
  total_size : Nat
deriving DecidableEq

/-- The filings table. -/
abbrev Store := List FilingRec

/-- is_filing_downloaded from sec_database.py: point lookup by filing_id. -/
def is_filing_downloaded (store : Store) (cik accession_number : String) : Bool :=
  store.any (fun r => r.filing_id == filingId cik accession_number)

/-- add_filing from sec_database.py: an upsert by primary key (INSERT OR
REPLACE), keeping the original row position on replacement. -/
def add_filing (store : Store) (rec : FilingRec) : Store :=
  if store.any (fun r => r.filing_id == rec.filing_id) then
    store.map (fun r => if r.filing_id == rec.filing_id then rec else r)
  else
    store ++ [rec]

/-- delete_filing_record from sec_database.py: remove the row with the
given identity, returning the new table and the deleted-row count. -/
def delete_filing_record (store : Store) (cik accession_number : String) : Store × Nat :=
  let remaining := store.filter (fun r => !(r.filing_id == filingId cik accession_number))
  (remaining, store.length - remaining.length)

/-! ## rate_limit.py: SafeRateLimiter

Token bucket over rational time.  The constructor performs no validation
whatsoever (the source init only stores its arguments). -/

structure RLState where
  capacity : ℚ
  tokens : ℚ
  refill_rate : ℚ
  last_refill : ℚ
deriving DecidableEq

/-- The SafeRateLimiter constructor: stores capacity, starts the bucket
full, records the refill rate and the construction time.  There is no
rejection path of any kind in the source. -/
def rlInit (capacity refill_rate now : ℚ) : RLState :=
  { capacity := capacity, tokens := capacity, refill_rate := refill_rate,
    last_refill := now }

/-- Result of one acquire call: whether it returned (the source always
returns true), how long it slept, and the state afterwards. -/
structure AcquireResult where
  granted : Bool
  waited : ℚ
  state : RLState
deriving DecidableEq

/-- acquire from rate_limit.py: refill from elapsed time capped at
capacity; with a full token consume one and return at once, otherwise
sleep exactly the deficit over the refill rate, zero the bucket and
return. -/
def rlAcquire (s : RLState) (now : ℚ) : AcquireResult :=
  let tokens1 := min s.capacity (s.tokens + (now - s.last_refill) * s.refill_rate)
  if 1 ≤ tokens1 then
    { granted := true, waited := 0,
      state := { s with tokens := tokens1 - 1, last_refill := now } }
  else
    { granted := true, waited := (1 - tokens1) / s.refill_rate,
      state := { s with tokens := 0, last_refill := now } }

/-! ## edgar_downloader.py: required_urls (document discovery) -/

/-- The typed URL map built per filing. -/
abbrev UrlMap := List (String × String)

/-- The last path segment of a URL without its extension, used as a key for
numeric description and type pairs. -/
def urlStem (doc : String) : String :=
  (pySplit ((pySplit doc '/').getLastD "") '.').headD ""

/-- The Archives prefix glued in front of relative document paths. -/
def secRoot : String := "https://www.sec.gov"

/-- The Document Format Files loop body of required_urls (lines 202 to 216):
thread the URL map and the complete-text flag through the entries. -/
def docFilesStep (acc : UrlMap × Bool) (kv : String × Entry) : UrlMap × Bool :=
  let (urls, found) := acc
  let (key, value) := kv
  if key = "Complete submission text file" then
    if found then (urls, found)
    else (dictSet urls "complete_txt" (secRoot ++ value.doc), true)
  else if pyIsDigit key && pyIsDigit value.type then
    (dictSet urls (urlStem value.doc) (secRoot ++ value.doc), found)
  else if endsWithAny value.doc [".htm", ".html"] then
    let url_key := value.type
    if !containsSub url_key "nbsp" then
      (dictSet urls url_key (secRoot ++ value.doc), found)
    else
      (dictSet urls key (secRoot ++ value.doc), found)
  else (urls, found)

/-- The Data Files loop body of required_urls (lines 220 to 231). -/
def dataFilesStep (urls : UrlMap) (kv : String × Entry) : UrlMap :=
  let (key, value) := kv
  let url_key := value.type
  if !containsSub url_key "nbsp" then
    if key = "EXTRACTED XBRL INSTANCE DOCUMENT" then
      dictSet urls "xbrl_instance" (secRoot ++ value.doc)
    else if pyIsDigit key && pyIsDigit value.type then
      dictSet urls (urlStem value.doc) (secRoot ++ value.doc)
    else
      dictSet urls ("xbrl_" ++ url_key) (secRoot ++ value.doc)
  else
    dictSet urls ("xbrl_" ++ key) (secRoot ++ value.doc)

/-- required_urls from edgar_downloader.py.  The CIK path segment lookup
precedes the try block, so on a malformed path the IndexError escapes; the
spreadsheet URL is seeded first; when the index-page fetch completes with
any status other than 200 the function returns None (ok none here); on a
200 the parsed sections populate the map and a missing complete-text entry
falls back to the input URL.  The except-Exception fallback of the source
is unreachable in the embedding because the body after the fetch is total. -/
def required_urls (env : Env) (filename : String) : Except PyErr (Option UrlMap) :=
  match pyIndex (pySplit filename '/') (-2) with
  | none => .error .indexError
  | some seg =>
    let cik := pyZfill seg 10
    let accession_number := (pySplit ((pySplit filename '/').getLastD "") '.').headD ""
    let urls0 : UrlMap :=
      [("financial_report_xlsx",
        "https://www.sec.gov/Archives/edgar/data/" ++ cik ++ "/"
          ++ pyReplace accession_number "-" "" ++ "/Financial_Report.xlsx")]
    let index_url := pyReplace filename ".txt" "-index.htm"
    match safe_request env index_url with
    | .error e => .error e
    | .ok resp =>
      if resp.code ≠ 200 then .ok none
      else
        let result := extract_sec_filing_data resp.text
        let doc_files := result.1
        let data_files := result.2
        let start : UrlMap × Bool :=
          if doc_files ≠ [] then
            match dictGet doc_files "Complete submission text file" with
            | some v => (dictSet urls0 "complete_txt" (secRoot ++ v.doc), true)
            | none => (urls0, false)
          else (urls0, false)
        let afterDocs :=
          if doc_files ≠ [] then doc_files.foldl docFilesStep start else start
        let afterData :=
          if data_files ≠ [] then data_files.foldl dataFilesStep afterDocs.1
          else afterDocs.1
        let final :=
          if afterDocs.2 then afterData else dictSet afterData "complete_txt" filename
        .ok (some final)

/-- extract_fiscal_info_from_txt from edgar_downloader.py: fetch the
complete submission text (process aborts propagate, since SystemExit is
not an Exception); an error status trips raise_for_status, whose HTTPError
the catch-all swallows, yielding the untouched initial fiscal info; on
success the pure parse runs. -/
def extract_fiscal_info_from_txt (env : Env) (complete_txt_url : String) :
    Except PyErr FiscalInfo :=
  match safe_request env complete_txt_url with
  | .error e => .error e
  | .ok resp =>
    if 400 ≤ resp.code then .ok {}
    else .ok (parse_fiscal_content resp.text)

/-! ## edgar_downloader.py: the download orchestrator -/

/-- The file extension taken as the final dot-separated piece of a URL. -/
def extOf (url : String) : String := (pySplit url '.').getLastD ""

/-- get_tikcer_by_cik from edgar_downloader.py (name as in the source):
membership plus truthiness, with the UNKNOWN fallback. -/
def get_tikcer_by_cik (env : Env) (cik : String) : String :=
  match env.tickers.find? (fun p => p.1 == pyStrip cik) with
  | some p => if p.2 = "" then "UNKNOWN" else p.2
  | none => "UNKNOWN"

/-- create_folder_path from edgar_downloader.py: despite its arguments it
only ever returns the pair of per-CIK directories (the normalized form
type it computes is dead).  Paths are plain strings here. -/
def create_folder_path (env : Env) (cik : String) : String × String :=
  (env.baseDir ++ "/" ++ cik, env.targetDir ++ "/" ++ cik)

/-- The date pick of create_filename: the report date when truthy and not
the literal None string, else the filing date. -/
def pickFilenameDate (report_date filing_date : String) : String :=
  if report_date ≠ "" && report_date ≠ "None" then report_date else filing_date

/-- create_filename from edgar_downloader.py.  For quarterly forms with
fiscal fields the name embeds year, form and period; for annual forms with
a fiscal year it embeds year and form; the annual fallback path calls
estimate_10K_fiscal_year, whose integer result is then given the string
replace method, so that path raises (ValueError from strptime, else
AttributeError on the int), which the error side records. -/
def create_filename (fiscal_info : FiscalInfo) (report_date filing_date : String)
    (_cik company_name : String) : Except PyErr String :=
  let form := fiscal_info.form_type
  let clean_form := match form with
    | some f => if f = "" then "UNKNOWN" else pyReplace (pyReplace f "/" "_") " " ""
    | none => "UNKNOWN"
  let company := pyStrip (pyReplace (pyReplace company_name "/" "_") "\\" "_")
  if form = some "10-Q" || form = some "10-Q/A" then
    if truthyO fiscal_info.fiscal_year && truthyO fiscal_info.fiscal_period then
      let clean_date := pyReplace ((fiscal_info.fiscal_year.getD "") ++ "_" ++ clean_form
        ++ "_" ++ (fiscal_info.fiscal_period.getD "")) "/" "_"
      .ok (clean_date ++ "_" ++ company)
    else
      let fd := pickFilenameDate report_date filing_date
      .ok (pyReplace (pyReplace fd "-" "") "/" "_" ++ "_" ++ company)
  else if form = some "10-K" || form = some "10-K/A" then
    if truthyO fiscal_info.fiscal_year then
      let clean_date := pyReplace (pyReplace (fiscal_info.fiscal_year.getD "") "-" "") "/" "_"
      .ok (clean_date ++ "_" ++ clean_form ++ "_" ++ company)
    else
      let fd := pyReplace (pickFilenameDate report_date filing_date) "-" ""
      match estimate_10K_fiscal_year fd with
      | none => .error .valueError
      | some _ => .error .attrError
  else
    let fd := pickFilenameDate report_date filing_date
    .ok (pyReplace (pyReplace fd "-" "") "/" "_" ++ "_" ++ company)

/-- Everything download_filing computes before deciding whether to commit:
the files written, the failure tags, the XBRL flag, the fiscal info and
the derived names and directories. -/
structure RunData where
  downloaded : List String
  failed : List String
  hasXbrl : Nat
  fi : FiscalInfo
  companyName : String
  fileName : String
  targetDir : String
  targetDir2 : String
  ticker : String
deriving DecidableEq

/-- The keys whose presence marks an HTML-bundle filing (line 432 of
edgar_downloader.py). -/
def formBundleKeys : List String := ["10-K", "10-Q", "10-K/A", "10-Q/A"]

/-- One iteration of the HTML-bundle download loop (lines 434 to 459): the
primary document, every xbrl key and every exhibit key are fetched; a file
is recorded only on a 200; the XBRL flag is raised as soon as an xbrl key
is seen, before its fetch.  Process aborts from safe_request propagate
(the handler around the loop only catches Exception, not SystemExit). -/
def htmlBundleStep (env : Env) (form_type file_name target_dir target_dir2 : String)
    (acc : List String × Nat) (kv : String × String) : Except PyErr (List String × Nat) :=
  let (key, url) := kv
  if key = form_type then
    let html_path := target_dir2 ++ "/" ++ file_name ++ "_main." ++ extOf url
    match safe_request env url with
    | .error e => .error e
    | .ok resp => .ok (if resp.code = 200 then acc.1 ++ [html_path] else acc.1, acc.2)
  else if containsSub key "xbrl" then
    let html_path := target_dir ++ "/" ++ file_name ++ "_" ++ pyReplace key "/" "_"
      ++ "." ++ extOf url
    match safe_request env url with
    | .error e => .error e
    | .ok resp => .ok (if resp.code = 200 then acc.1 ++ [html_path] else acc.1, 1)
  else if containsSub (pyUpper key) "EX" then
    let html_path := target_dir2 ++ "/" ++ file_name ++ "_" ++ pyReplace key "/" "_"
      ++ "." ++ extOf url
    match safe_request env url with
    | .error e => .error e
    | .ok resp => .ok (if resp.code = 200 then acc.1 ++ [html_path] else acc.1, acc.2)
  else .ok acc

/-- Lines 411 to 497 of download_filing: discovery, metadata, naming and
the document downloads, stopping where an uncaught exception would.  The
result is none when required_urls returned None (the caller then returns
None as well). -/
def download_run (env : Env) (filling : Filing) : Except PyErr (Option RunData) :=
  let ticker := get_tikcer_by_cik env filling.cik
  match required_urls env filling.file_name with
  | .error e => .error e
  | .ok none => .ok none
  | .ok (some urls) =>
    match dictGet urls "complete_txt" with
    | none => .error (.keyError "complete_txt")
    | some ctUrl =>
      match extract_fiscal_info_from_txt env ctUrl with
      | .error e => .error e
      | .ok fiscal_info =>
        let company_name := match fiscal_info.company_name with
          | some s => if s = "" then filling.company_name else s
          | none => filling.company_name
        match fiscal_info.period_end_year with
        | none => .error (.keyError "period_end_year")
        | some report_date =>
          match fiscal_info.date_filed_year with
          | none => .error (.keyError "date_filed_year")
          | some filed_date =>
            match create_filename fiscal_info report_date filed_date filling.cik
                company_name with
            | .error e => .error e
            | .ok file_name =>
              let dirs := create_folder_path env filling.cik
              let target_dir := dirs.1
              let target_dir2 := dirs.2
              let mainStep : Except PyErr (List String × List String × Nat) :=
                if formBundleKeys.any (fun k => dictHas urls k) then
                  match urls.foldlM
                      (htmlBundleStep env filling.form_type file_name target_dir
                        target_dir2) ([], 0) with
                  | .error e => .error e
                  | .ok p => .ok (p.1, [], p.2)
                else
                  match dictGet urls "complete_txt" with
                  | none => .ok ([], ["txt"], 0)
                  | some u =>
                    match safe_request env u with
                    | .error e => .error e
                    | .ok resp =>
                      if resp.code = 200 then
                        .ok ([target_dir2 ++ "/" ++ file_name ++ "_full_submission.txt"],
                             [], 0)
                      else .ok ([], [], 0)
              match mainStep with
              | .error e => .error e
              | .ok (downloaded1, failed1, hasXbrl) =>
                match dictGet urls "financial_report_xlsx" with
                | none =>
                  .ok (some
                    { downloaded := downloaded1, failed := failed1 ++ ["xlsx"],
                      hasXbrl := hasXbrl, fi := fiscal_info, companyName := company_name,
                      fileName := file_name, targetDir := target_dir,
                      targetDir2 := target_dir2, ticker := ticker })
                | some xu =>
                  match safe_request env xu with
                  | .error e => .error e
                  | .ok resp =>
                    let downloaded2 :=
                      if resp.code = 200 then
                        downloaded1 ++ [target_dir ++ "/" ++ file_name
                          ++ "_financial_report.xlsx"]
                      else downloaded1
                    .ok (some
                      { downloaded := downloaded2, failed := failed1,
                        hasXbrl := hasXbrl, fi := fiscal_info, companyName := company_name,
                        fileName := file_name, targetDir := target_dir,
                        targetDir2 := target_dir2, ticker := ticker })

/-- The filing_data dict built at lines 499 to 516, restricted to the
columns add_filing persists.  The period-end column takes the dict value
directly because its key always exists (the dict get default is dead);
the filing-date column falls back to the descriptor's date because its
key may genuinely be absent. -/
def mk_filing_data (env : Env) (filling : Filing) (rd : RunData) : FilingRec :=
  { filing_id := filingId filling.cik filling.accession_number
    cik := filling.cik
    accession_number := filling.accession_number
    form_type := filling.form_type
    company_name := rd.companyName
    ticker := rd.ticker
    fiscal_year := rd.fi.fiscal_year
    fiscal_period := rd.fi.fiscal_period
    filing_date := (rd.fi.date_filed).getD filling.date_filed
    period_end_date := rd.fi.period_end_date
    file_path := rd.targetDir2
    file_count := rd.downloaded.length
    total_size := env.dirSize rd.targetDir2 }

/-- The per-filing result dict of download_filing. -/
structure DFResults where
  filing_record : Filing
  downloaded_files : List String
  failed_files : List String
  skipped : Bool
deriving DecidableEq

/-- download_filing from edgar_downloader.py: skip immediately when the
store already holds the identity; return None when discovery returned
None; otherwise run the downloads and commit a record through add_filing
exactly when the downloaded-files list is nonempty (line 498). -/
def download_filing (env : Env) (store : Store) (filling : Filing) :
    Except PyErr (Option DFResults × Store) :=
  if is_filing_downloaded store filling.cik filling.accession_number then
    .ok (some { filing_record := filling, downloaded_files := [], failed_files := [],
                skipped := true }, store)
  else
    match download_run env filling with
    | .error e => .error e
    | .ok none => .ok (none, store)
    | .ok (some rd) =>
      let results : DFResults :=
        { filing_record := filling, downloaded_files := rd.downloaded,
          failed_files := rd.failed, skipped := false }
      if rd.downloaded.isEmpty then .ok (some results, store)
      else .ok (some results, add_filing store (mk_filing_data env filling rd))

/-! ## Derived predicates and concrete instances used by the theorems -/

/-- Whether a call ended in one of the SystemExit aborts of safe_request. -/
def isFatalAbort {α : Type} : Except PyErr α → Bool
  | .error (.sysExit _) => true
  | _ => false

/-- A filing descriptor whose identity is already recorded, for the skip
path of download_filing. -/
def w1Fill : Filing :=
  { company_name := "ACME CORP", form_type := "10-K", cik := "0000000001",
    date_filed := "20230101",
    file_name := "https://www.sec.gov/Archives/edgar/data/1/0000000001-23-000001.txt",
    accession_number := "0000000001-23-000001" }

/-- The recorded row matching w1Fill. -/
def w1Rec : FilingRec :=
  { filing_id := "0000000001_0000000001-23-000001", cik := "0000000001",
    accession_number := "0000000001-23-000001", form_type := "10-K",
    company_name := "ACME CORP", ticker := "UNKNOWN", fiscal_year := some "2022",
    fiscal_period := some "FY", filing_date := "2023-01-01",
    period_end_date := some "2022-12-31", file_path := "sec-data/0000000001",
    file_count := 1, total_size := 10 }

/-- A store already holding w1Rec. -/
def w1Store : Store := [w1Rec]

/-- An inert environment: every fetch yields a 404. -/
def w1Env : Env :=
  { net := fun _ => .ok 404, body := fun _ => "", baseDir := "base",
    targetDir := "sec-data", tickers := [], dirSize := fun _ => 0 }

/-- The result download_filing produces on the skip path for w1Fill. -/
def w1Res : DFResults :=
  { filing_record := w1Fill, downloaded_files := [], failed_files := [],
    skipped := true }

/-- An environment whose session raises an unexpected exception on every
request. -/
def ce2Env : Env :=
  { net := fun _ => .otherExc, body := fun _ => "", baseDir := "base",
    targetDir := "sec-data", tickers := [], dirSize := fun _ => 0 }

/-- A URL for the safe_request counterexample. -/
def ce2Url : String := "https://www.sec.gov/Archives/edgar/full-index/form.idx"

/-- An environment answering every request with a 404. -/
def w2Env : Env :=
  { net := fun _ => .ok 404, body := fun _ => "", baseDir := "base",
    targetDir := "sec-data", tickers := [], dirSize := fun _ => 0 }

/-- A row for the store round-trip witness. -/
def w3Rec : FilingRec :=
  { filing_id := "0000000002_0000000002-23-000009", cik := "0000000002",
    accession_number := "0000000002-23-000009", form_type := "10-Q",
    company_name := "BETA LLC", ticker := "BETA", fiscal_year := some "2023",
    fiscal_period := some "Q1", filing_date := "2023-05-01",
    period_end_date := some "2023-03-31", file_path := "sec-data/0000000002",
    file_count := 2, total_size := 20 }

/-- The filing text URL for the document-discovery counterexample. -/
def c4File : String := "https://www.sec.gov/Archives/edgar/data/55/0000000055-23-000001.txt"

/-- An environment whose index-page fetch comes back 404. -/
def c4Env : Env :=
  { net := fun _ => .ok 404, body := fun _ => "", baseDir := "base",
    targetDir := "sec-data", tickers := [], dirSize := fun _ => 0 }

/-- A filing index page whose Document Format Files section holds one row
linking a htm document and whose Data Files section holds one row linking
a xsd schema. -/
def c5Html : String :=
  "<html><p>Document Format Files</p><table>" ++
  "<tr><td>1</td><td>Main Document</td><td><a href=\"/Archives/edgar/data/1/main.htm\">main.htm</a></td><td>10-K</td></tr>" ++
  "</table><p>Data Files</p><table>" ++
  "<tr><td>2</td><td>XBRL SCHEMA</td><td><a href=\"/Archives/edgar/data/1/sch.xsd\">sch.xsd</a></td><td>EX-101.SCH</td></tr>" ++
  "</table><!-- END DOCUMENT DIV -->"

/-- A filing text URL for the missing-headers scenario. -/
def c6File : String := "https://www.sec.gov/Archives/edgar/data/1234/0000001234-23-000001.txt"

/-- The derived index page URL of c6File. -/
def c6Index : String := pyReplace c6File ".txt" "-index.htm"

/-- An environment where the index page parses to nothing (no section
markers) and the complete submission text carries no fiscal header lines;
every other fetch is a 404. -/
def c6Env : Env :=
  { net := fun u => if u = c6Index then .ok 200 else if u = c6File then .ok 200 else .ok 404,
    body := fun u => if u = c6Index then "<html>a filing</html>"
      else if u = c6File then "A SUBMISSION WITHOUT FISCAL HEADER LINES" else "",
    baseDir := "base", targetDir := "sec-data", tickers := [], dirSize := fun _ => 0 }

/-- The descriptor of the filing whose submission text has no headers. -/
def c6Fill : Filing :=
  { company_name := "GAMMA INC", form_type := "10-K", cik := "0000001234",
    date_filed := "20230101", file_name := c6File,
    accession_number := "0000001234-23-000001" }

/-- A submission text with the conformed type and period lines and no
fiscal-focus tags. -/
def c7Text : String :=
  "CONFORMED SUBMISSION TYPE:\t10-Q\nCONFORMED PERIOD OF REPORT:\t20230331\n"

/-- A well-formed annual-report index line. -/
def c8Line10K : String :=
  "10-K        ACME HOLDINGS INC                     1234567     20230215    edgar/data/1234567/0001234567-23-000111.txt"

/-- A well-formed current-report index line (outside the target set). -/
def c8Line8K : String :=
  "8-K         BETA LLC                              789         20230215    edgar/data/789/0001234567-23-000456.txt"

/-- A line matching nothing. -/
def c8LineBad : String := "THIS IS NOT A VALID LINE"

/-- A synthetic per-day index file: a header, the dashed separator, then
the three data lines. -/
def c8Content : String :=
  "Form Type   Company Name   CIK   Date Filed   File Name\n"
  ++ "--------------------------------------------\n"
  ++ c8Line10K ++ "\n" ++ c8Line8K ++ "\n" ++ c8LineBad ++ "\n"

/-- An environment serving the synthetic index file everywhere. -/
def c8Env : Env :=
  { net := fun _ => .ok 200, body := fun _ => c8Content, baseDir := "base",
    targetDir := "sec-data", tickers := [], dirSize := fun _ => 0 }

/-- The one descriptor the synthetic index file should yield. -/
def c8Expected : Filing :=
  { company_name := "ACME HOLDINGS INC", form_type := "10-K",
    cik := "0001234567", date_filed := "20230215",
    file_name := "https://www.sec.gov/Archives/edgar/data/1234567/0001234567-23-000111.txt",
    accession_number := "0001234567-23-000111" }

/-! ## Helper lemmas -/

/-- The header scan succeeds exactly on inputs holding an all-dash line. -/
theorem findDataStart_isSome (lines : List String) :
    (findDataStart lines).isSome = lines.any isDashLine := by
  induction lines with
  | nil => rfl
  | cons l ls ih =>
    by_cases hd : isDashLine l
    · simp [findDataStart, hd]
    · simp [findDataStart, hd, ih]

/-- Indexing a list of at least two elements from the back at distance two
cannot raise. -/
theorem pyIndex_neg_two {α : Type} (l : List α) (h : 2 ≤ l.length) :
    ∃ x, pyIndex l (-2) = some x := by
  unfold pyIndex
  have h1 : ((-2 : Int) < 0) := by norm_num
  simp only [if_pos h1]
  have h2 : ¬ ((l.length : Int) + (-2) < 0) := by omega
  rw [if_neg h2]
  cases hg : l.get? ((l.length : Int) + (-2)).toNat with
  | none =>
    exfalso
    rw [List.get?_eq_none] at hg
    omega
  | some x => exact ⟨x, rfl⟩

/-! ## Claim theorems -/

set_option maxRecDepth 100000

/-- C1: whenever download_filing returns normally, the store changes only
when the result carries a nonempty downloaded-files list, and with an
empty downloaded-files list the store is untouched, so the filing's
recorded status is exactly what it was before the call (an unrecorded
filing stays unrecorded and thus eligible for a later retry).  Every
abnormal exit (uncaught exception, process abort) leaves the input store
as the only store there is. -/
theorem c1_record_committed_only_with_download (env : Env) (store : Store)
    (filling : Filing) (ro : Option DFResults) (store' : Store)
    (h : download_filing env store filling = .ok (ro, store')) :
    ((∃ r, ro = some r ∧ r.downloaded_files ≠ []) ∨ store' = store) ∧
    (∀ r, ro = some r → r.downloaded_files = [] →
      store' = store ∧
      is_filing_downloaded store' filling.cik filling.accession_number =
        is_filing_downloaded store filling.cik filling.accession_number) := by
  unfold download_filing at h
  split at h
  · simp only [Except.ok.injEq, Prod.mk.injEq] at h
    obtain ⟨h1, h2⟩ := h
    subst h2
    constructor
    · right; rfl
    · intro r hr he; exact ⟨rfl, rfl⟩
  · split at h
    · exact absurd h (by simp)
    · simp only [Except.ok.injEq, Prod.mk.injEq] at h
      obtain ⟨h1, h2⟩ := h
      subst h1; subst h2
      constructor
      · right; rfl
      · intro r hr; cases hr
    · rename_i rd heq
      split at h
      · rename_i hemp
        simp only [Except.ok.injEq, Prod.mk.injEq] at h
        obtain ⟨h1, h2⟩ := h
        subst h2
        constructor
        · right; rfl
        · intro r hr he; exact ⟨rfl, rfl⟩
      · rename_i hemp
        simp only [Except.ok.injEq, Prod.mk.injEq] at h
        obtain ⟨h1, h2⟩ := h
        constructor
        · left
          refine ⟨{ filing_record := filling, downloaded_files := rd.downloaded,
                    failed_files := rd.failed, skipped := false }, h1.symm, ?_⟩
          simpa using fun hc => hemp (by simp [hc, List.isEmpty_nil])
        · intro r hr he
          exfalso
          rw [← h1] at hr
          cases hr
          simp only at he
          exact hemp (by simp [he])

/-- C1 witness: on the skip path (identity already recorded) the call
returns with an empty downloaded-files list and the store unchanged. -/
theorem c1_record_committed_only_with_download_witness :
    w1Store = w1Store ∧
    is_filing_downloaded w1Store w1Fill.cik w1Fill.accession_number =
      is_filing_downloaded w1Store w1Fill.cik w1Fill.accession_number :=
  (c1_record_committed_only_with_download w1Env w1Store w1Fill (some w1Res)
    w1Store rfl).2 w1Res rfl rfl

/-- C2 counterexample: an unexpected exception during the request (the
catch-all handler of safe_request) also aborts the process, although the
status is neither 429 nor 403 and there is neither a connection error nor
a user interrupt — so the claim's only-if enumeration is incomplete. -/
theorem c2_counterexample_unexpected_exception_aborts :
    safe_request ce2Env ce2Url = .error (.sysExit .unexpected) ∧
    ce2Env.net ce2Url ≠ .ok 429 ∧ ce2Env.net ce2Url ≠ .ok 403 ∧
    ce2Env.net ce2Url ≠ .connErr ∧ ce2Env.net ce2Url ≠ .interrupt :=
  ⟨rfl, by decide, by decide, by decide, by decide⟩

/-- C2 amended: safe_request aborts the process exactly when the status is
429 or 403, a connection error occurs, the user interrupts, or any other
unexpected exception is raised; a timeout yields a synthetic 408 response
without raising; every other status, 404 and the remaining client and
server errors included, is returned as is. -/
theorem c2_fatal_abort_characterization (env : Env) (url : String) :
    (isFatalAbort (safe_request env url) = true ↔
      (env.net url = .ok 429 ∨ env.net url = .ok 403 ∨ env.net url = .connErr ∨
       env.net url = .interrupt ∨ env.net url = .otherExc)) ∧
    (env.net url = .timeout → safe_request env url = .ok { code := 408, text := "" }) ∧
    (∀ c, env.net url = .ok c → c ≠ 429 → c ≠ 403 →
      safe_request env url = .ok { code := c, text := env.body url }) := by
  refine ⟨?_, ?_, ?_⟩
  · cases hev : env.net url with
    | ok c =>
      by_cases h429 : c = 429
      · subst h429; simp [safe_request, hev, isFatalAbort]
      · by_cases h403 : c = 403
        · subst h403; simp [safe_request, hev, isFatalAbort, h429]
        · simp [safe_request, hev, isFatalAbort, h429, h403]
    | timeout => simp [safe_request, hev, isFatalAbort]
    | connErr => simp [safe_request, hev, isFatalAbort]
    | interrupt => simp [safe_request, hev, isFatalAbort]
    | otherExc => simp [safe_request, hev, isFatalAbort]
  · intro h; simp [safe_request, h]
  · intro c h h429 h403; simp [safe_request, h, h429, h403]

/-- C2 witness: a 404 is returned as is, non-fatally. -/
theorem c2_fatal_abort_characterization_witness :
    safe_request w2Env ce2Url = .ok { code := 404, text := "" } :=
  (c2_fatal_abort_characterization w2Env ce2Url).2.2 404 rfl (by decide) (by decide)

/-- C3: for every pair, adding a record carrying the composite identity
makes the point lookup answer true at once, and deleting by the pair makes
it answer false at once. -/
theorem c3_add_delete_lookup_roundtrip (store : Store) (cik accession_number : String)
    (rec : FilingRec) (hid : rec.filing_id = filingId cik accession_number) :
    is_filing_downloaded (add_filing store rec) cik accession_number = true ∧
    is_filing_downloaded (delete_filing_record store cik accession_number).1
      cik accession_number = false := by
  constructor
  · unfold is_filing_downloaded add_filing
    by_cases hc : store.any (fun r => r.filing_id == rec.filing_id)
    · rw [if_pos hc]
      rw [List.any_eq_true] at hc ⊢
      obtain ⟨x, hx, hxe⟩ := hc
      refine ⟨(fun r => if r.filing_id == rec.filing_id then rec else r) x,
        List.mem_map_of_mem _ hx, ?_⟩
      simp only [hxe, if_true]
      simp [hid]
    · rw [if_neg hc]
      rw [List.any_append]
      simp [hid]
  · unfold is_filing_downloaded delete_filing_record
    simp only
    rw [List.any_eq_false]
    intro x hx
    rw [List.mem_filter] at hx
    simpa using hx.2

/-- C3 witness: the round trip at one concrete record over the empty
store. -/
theorem c3_add_delete_lookup_roundtrip_witness :
    is_filing_downloaded (add_filing [] w3Rec) "0000000002" "0000000002-23-000009" = true ∧
    is_filing_downloaded
      (delete_filing_record [] "0000000002" "0000000002-23-000009").1
      "0000000002" "0000000002-23-000009" = false :=
  c3_add_delete_lookup_roundtrip [] "0000000002" "0000000002-23-000009" w3Rec rfl

/-- C4 counterexample: when the fetch of the derived index page completes
with a 404, required_urls returns None — an absent result, not the
degraded two-entry map the claim promises. -/
theorem c4_counterexample_fetch_failure_returns_none :
    required_urls c4Env c4File = .ok none := rfl

/-- C4 amended: when the fetch of the derived index page completes with
any status other than 200 (the fatal 429 and 403 aside, which abort), and
likewise when it times out (the synthetic 408), required_urls returns
None; the caller then skips the filing.  The degraded map of the claim is
only produced by the exception fallback around the parsing, not by a
failed fetch. -/
theorem c4_non200_fetch_yields_none :
    (∀ (env : Env) (filename : String) (c : Nat),
      2 ≤ (pySplit filename '/').length →
      env.net (pyReplace filename ".txt" "-index.htm") = .ok c →
      c ≠ 429 → c ≠ 403 → c ≠ 200 →
      required_urls env filename = .ok none) ∧
    (∀ (env : Env) (filename : String),
      2 ≤ (pySplit filename '/').length →
      env.net (pyReplace filename ".txt" "-index.htm") = .timeout →
      required_urls env filename = .ok none) := by
  constructor
  · intro env filename c hsplit hnet h429 h403 h200
    obtain ⟨seg, hseg⟩ := pyIndex_neg_two _ hsplit
    unfold required_urls
    rw [hseg]
    simp only [safe_request, hnet]
    rw [if_neg h429, if_neg h403]
    simp only
    rw [if_pos h200]
  · intro env filename hsplit hnet
    obtain ⟨seg, hseg⟩ := pyIndex_neg_two _ hsplit
    unfold required_urls
    rw [hseg]
    simp only [safe_request, hnet]
    simp

/-- C4 witness: the amended statement at the concrete 404 environment. -/
theorem c4_non200_fetch_yields_none_witness :
    required_urls c4Env c4File = .ok none :=
  c4_non200_fetch_yields_none.1 c4Env c4File 404 (by decide) rfl (by decide)
    (by decide) (by decide)

/-- C5: evaluating the parser of EDGAR/utils/index_parser.py on an index
page whose Data Files section holds a typed xsd row shows the row is
dropped (the Data Files loop applies the same htm/html/txt suffix filter
as the Document Format Files loop), while the htm document row of the
other section is kept — against the claim, the spec, the code's own
comment describing the Data Files section as all files, and the sibling
copy in EDGAR - Copy which keeps every data row. -/
theorem c5_data_files_suffix_filter_drops_xsd :
    extract_sec_filing_data c5Html =
      ([("Main Document", { type := "10-K", doc := "/Archives/edgar/data/1/main.htm" })],
       []) := rfl

/-- C6: with a submission text carrying no fiscal header lines the
extractor itself degrades to the all-empty fiscal info exactly as the
claim says, but the consuming step of download_filing then reads the
never-created period-end-year key with bracket indexing and dies with an
uncaught KeyError — the filing's processing aborts instead of completing. -/
theorem c6_missing_headers_raise_keyerror :
    parse_fiscal_content "A SUBMISSION WITHOUT FISCAL HEADER LINES" = ({} : FiscalInfo) ∧
    download_filing c6Env [] c6Fill = .error (.keyError "period_end_year") :=
  ⟨rfl, rfl⟩

/-- C7: a submission text with the quarterly conformed type and a
period-of-report of the last day of March 2023 yields form type 10-Q,
fiscal year 2023 taken from the leading digits of the period date, and
fiscal period Q1 through the date-to-quarter mapping, whose late-March
window covers the 31st. -/
theorem c7_fiscal_extraction_10q_march :
    (parse_fiscal_content c7Text).form_type = some "10-Q" ∧
    (parse_fiscal_content c7Text).fiscal_year = some "2023" ∧
    (parse_fiscal_content c7Text).fiscal_period = some "Q1" ∧
    determine_QTR_from_date (some "2023-03-31") = "Q1" :=
  ⟨rfl, rfl, rfl, rfl⟩

/-- C8: the synthetic index file with a dashed separator and three data
lines parses to exactly the annual-report descriptor: the current-report
line is filtered by the target-form set and the malformed line is skipped,
with no exception escaping. -/
theorem c8_synthetic_index_single_descriptor :
    pure_parse_daily_single_index c8Env "https://www.sec.gov/Archives/form.idx" =
      .ok [c8Expected] := rfl

/-- C9 counterexample: constructing the rate limiter with capacity zero is
not rejected — the constructor stores the arguments unchecked and the
resulting limiter is usable: acquire returns true. -/
theorem c9_counterexample_capacity_zero_accepted :
    (rlInit 0 9 0).capacity = 0 ∧ (rlInit 0 9 0).tokens = 0 ∧
    (rlAcquire (rlInit 0 9 0) 1).granted = true := by
  refine ⟨rfl, rfl, ?_⟩
  norm_num [rlInit, rlAcquire]

/-- C9 amended: construction with capacity zero succeeds (the constructor
has no validation path); the bucket starts empty and can never hold a
token, so every acquire takes the blocking branch, sleeps one over the
refill rate, and still returns true. -/
theorem c9_capacity_zero_limiter_blocks_each_acquire (t0 t1 : ℚ) (h : t0 ≤ t1) :
    rlAcquire (rlInit 0 9 t0) t1 =
      { granted := true, waited := 1 / 9,
        state := { capacity := 0, tokens := 0, refill_rate := 9,
                   last_refill := t1 } } := by
  unfold rlAcquire rlInit
  have hmin : min (0:ℚ) (0 + (t1 - t0) * 9) = 0 := by
    apply min_eq_left
    have : (0:ℚ) ≤ (t1 - t0) * 9 := by
      apply mul_nonneg <;> linarith
    linarith
  simp only [hmin]
  rw [if_neg (by norm_num : ¬ (1:ℚ) ≤ 0)]
  norm_num

/-- C9 witness: the amended statement at construction time zero and
acquisition time one. -/
theorem c9_capacity_zero_limiter_blocks_each_acquire_witness :
    rlAcquire (rlInit 0 9 0) 1 =
      { granted := true, waited := 1 / 9,
        state := { capacity := 0, tokens := 0, refill_rate := 9,
                   last_refill := 1 } } :=
  c9_capacity_zero_limiter_blocks_each_acquire 0 1 (by norm_num)

/-- C10: the pure index-file parse returns a value exactly when some line
consists solely of dashes; otherwise the loop variable holding the data
start is never assigned and reading it raises NameError, which the none
result models, so totality needs the dash-separator precondition. -/
theorem c10_dash_separator_totality (lines : List String) :
    (pure_parse_daily_lines lines).isSome = lines.any isDashLine := by
  rw [← findDataStart_isSome]
  unfold pure_parse_daily_lines
  cases findDataStart lines <;> rfl

end Edgar
